import Mathlib

/-!
# Ludwig — verification of the spec against the source

Shallow embedding of the claim-relevant parts of the `ludwig` mixer-control
codebase (Python), together with theorems settling the frozen claims.

Conventions of the embedding:
* Python floats are modelled as exact rationals `ℚ` (all constants involved,
  127, 63.5, clamp bounds, are exactly representable; no claim depends on
  binary floating-point rounding).
* Python `int(x)` (truncation toward zero) is `pyTrunc`.
* Python exceptions are modelled with `Except PyErr`; a function with no
  `raise` on the modelled path is total.
* MIDI messages are the lists of byte values handed to the transport
  (`rtmidi` `send_message` is an external collaborator and is not modelled
  beyond receiving the list).
-/

/-- Python exception kinds that can arise on the modelled paths.
The codebase defines no custom exception classes (no `RangeError`,
`InvalidChannelError`, `ParameterPathError`, ... exist anywhere in `src/`);
only builtin exceptions can be raised. -/
inductive PyErr where
  | indexError
  | attributeError
  | typeError
  | valueError
deriving DecidableEq, Repr

/-- `rtmidi.midiconstants.CONTROL_CHANGE` (0xB0). -/
def CONTROL_CHANGE : ℕ := 0xB0

/-- `rtmidi.midiconstants.NOTE_ON` (0x90). -/
def NOTE_ON : ℕ := 0x90

/-- Python `int(q)` on a float/rational: truncation toward zero. -/
def pyTrunc (q : ℚ) : ℤ :=
  if 0 ≤ q then ⌊q⌋ else ⌈q⌉

/-! ## Protocol codec: `src/ludwig/midi.py`

`Midi.send(message)` forwards `message` unchanged to
`self.midi.send_message(message)`; it performs no validation of any kind.
We model it as the byte list submitted to the transport. -/

/-- `Midi.send` (midi.py line 43-45): the bytes handed to the transport,
exactly the caller's list, unvalidated. -/
def Midi.send (message : List ℕ) : List ℕ := message

/-- `Midi.nrpn` (midi.py lines 47-53): four successive `self.send` calls.
`selfChannel` is the connection's MIDI channel (`self.channel`);
`header = CONTROL_CHANGE | self.channel`. -/
def Midi.nrpn (selfChannel channel param data1 data2 : ℕ) : List (List ℕ) :=
  let header := CONTROL_CHANGE ||| selfChannel
  [ Midi.send [header, 0x63, channel]
  , Midi.send [header, 0x62, param]
  , Midi.send [header, 0x6, data1]
  , Midi.send [header, 0x26, data2] ]

/-! ## Value normalizer: `src/ludwig/plugins/base.py` lines 127-141 -/

/-- `BoardPlugin._translate_fader_to_hardware` (base.py 127-129):
`int(level * 127)`. -/
def translate_fader_to_hardware (level : ℚ) : ℤ :=
  pyTrunc (level * 127)

/-- `BoardPlugin._translate_fader_from_hardware` (base.py 131-133):
`value / 127.0`. -/
def translate_fader_from_hardware (value : ℤ) : ℚ :=
  (value : ℚ) / 127

/-- `BoardPlugin._translate_pan_to_hardware` (base.py 135-137):
`int((pan + 1.0) * 63.5)`. Note the Python `int(...)` truncation. -/
def translate_pan_to_hardware (pan : ℚ) : ℤ :=
  pyTrunc ((pan + 1) * (63.5 : ℚ))

/-- `BoardPlugin._translate_pan_from_hardware` (base.py 139-141):
`(value / 63.5) - 1.0`. -/
def translate_pan_from_hardware (value : ℤ) : ℚ :=
  (value : ℚ) / (63.5 : ℚ) - 1

/-! ### Theorems for C1, C2, C8 -/

/-- C1: for channel, param, data1, data2 each in [0,127], `Midi.nrpn` emits
exactly 4 three-byte Control-Change messages, in order, with controller
numbers 0x63, 0x62, 0x06, 0x26 carrying channel, param, data1, data2, each
with status byte `0xB0 ||| selfChannel`. -/
theorem c1_nrpn_four_cc_messages
    (selfChannel channel param data1 data2 : ℕ)
    (hc : channel ≤ 127) (hp : param ≤ 127)
    (h1 : data1 ≤ 127) (h2 : data2 ≤ 127) :
    Midi.nrpn selfChannel channel param data1 data2 =
      [ [0xB0 ||| selfChannel, 0x63, channel]
      , [0xB0 ||| selfChannel, 0x62, param]
      , [0xB0 ||| selfChannel, 0x06, data1]
      , [0xB0 ||| selfChannel, 0x26, data2] ] ∧
    (Midi.nrpn selfChannel channel param data1 data2).length = 4 ∧
    ∀ m ∈ Midi.nrpn selfChannel channel param data1 data2, m.length = 3 := by
  refine ⟨rfl, rfl, ?_⟩
  intro m hm
  simp [Midi.nrpn, Midi.send] at hm
  rcases hm with h | h | h | h <;> subst h <;> rfl

/-- Witness for C1 at the spec's own example (channel=5, param=0x17,
data1=100, data2=7) on MIDI channel 0. -/
theorem c1_nrpn_four_cc_messages_witness :
    Midi.nrpn 0 5 0x17 100 7 =
      [ [0xB0, 0x63, 5], [0xB0, 0x62, 0x17]
      , [0xB0, 0x06, 100], [0xB0, 0x26, 7] ] ∧
    (Midi.nrpn 0 5 0x17 100 7).length = 4 := by
  have h := c1_nrpn_four_cc_messages 0 5 0x17 100 7
    (by decide) (by decide) (by decide) (by decide)
  exact ⟨h.1, h.2.1⟩

/-- C2 counterexample: the claim says pan 0.0 translates to hardware 64 and
hardware 64 translates back to exactly 0.0. The code truncates with `int`,
so pan 0.0 yields 63, and 64 maps back to 1/127, not 0. -/
theorem c2_pan_center_counterexample :
    translate_pan_to_hardware 0 = 63 ∧ translate_pan_from_hardware 64 ≠ 0 := by
  constructor
  · show pyTrunc ((0 + 1) * (63.5 : ℚ)) = 63
    rw [pyTrunc, if_pos (by norm_num)]
    norm_num [Int.floor_eq_iff]
  · show (64 : ℚ) / (63.5 : ℚ) - 1 ≠ 0
    norm_num

/-- C2 (amended): the pan scaler is `int((p+1.0)*63.5)` — truncation, which
on the domain p ≥ -1 coincides with the floor; pan 0.0 yields hardware 63
(not 64) and hardware 64 maps back to 1/127 (not exactly 0); the round-trip
to hardware and back stays within ±1 device unit (2/127 in pan space) for
every pan in [-1,1]. -/
theorem c2_pan_scaler_amended (p : ℚ) (hlo : -1 ≤ p) (hhi : p ≤ 1) :
    translate_pan_to_hardware p = ⌊(p + 1) * (63.5 : ℚ)⌋ ∧
    |translate_pan_from_hardware (translate_pan_to_hardware p) - p| ≤ 2 / 127 ∧
    translate_pan_to_hardware 0 = 63 ∧
    translate_pan_from_hardware 64 = 1 / 127 := by
  have harg : (0 : ℚ) ≤ (p + 1) * (63.5 : ℚ) := by nlinarith
  have hfloor : translate_pan_to_hardware p = ⌊(p + 1) * (63.5 : ℚ)⌋ := by
    rw [translate_pan_to_hardware, pyTrunc, if_pos harg]
  refine ⟨hfloor, ?_, ?_, ?_⟩
  · rw [hfloor, translate_pan_from_hardware]
    have h1 : (⌊(p + 1) * (63.5 : ℚ)⌋ : ℚ) ≤ (p + 1) * (63.5 : ℚ) :=
      Int.floor_le _
    have h2 : (p + 1) * (63.5 : ℚ) - 1 < (⌊(p + 1) * (63.5 : ℚ)⌋ : ℚ) :=
      Int.sub_one_lt_floor _
    have hdiv : (⌊(p + 1) * (63.5 : ℚ)⌋ : ℚ) / (63.5 : ℚ) =
        (⌊(p + 1) * (63.5 : ℚ)⌋ : ℚ) * (2 / 127) := by
      rw [div_eq_mul_inv]
      norm_num
    rw [abs_le, hdiv]
    have h3 : (⌊(p + 1) * (63.5 : ℚ)⌋ : ℚ) * (2 / 127) ≤ p + 1 := by
      nlinarith
    have h4 : p + 1 - 2 / 127 < (⌊(p + 1) * (63.5 : ℚ)⌋ : ℚ) * (2 / 127) := by
      nlinarith
    constructor <;> linarith
  · show pyTrunc ((0 + 1) * (63.5 : ℚ)) = 63
    rw [pyTrunc, if_pos (by norm_num)]
    norm_num [Int.floor_eq_iff]
  · show (64 : ℚ) / (63.5 : ℚ) - 1 = 1 / 127
    norm_num

/-- Witness for C2 (amended) at p = 1/2: hardware value is
⌊(3/2)·63.5⌋ = 95 and the round-trip error is within 2/127. -/
theorem c2_pan_scaler_amended_witness :
    translate_pan_to_hardware (1 / 2) = ⌊((1 : ℚ) / 2 + 1) * (63.5 : ℚ)⌋ ∧
    |translate_pan_from_hardware (translate_pan_to_hardware (1 / 2)) - 1 / 2|
      ≤ 2 / 127 := by
  have h := c2_pan_scaler_amended (1 / 2) (by norm_num) (by norm_num)
  exact ⟨h.1, h.2.1⟩

/-- C8: for every integer v in [0,127], composing the default fader scalers
`from_hardware (to_hardware (v/127))` reconstructs v within ±1 device unit:
the reconstructed normalized value times 127 differs from v by at most 1.
(With exact arithmetic the round-trip is in fact exact.) -/
theorem c8_fader_roundtrip (v : ℕ) (hv : v ≤ 127) :
    |translate_fader_from_hardware
        (translate_fader_to_hardware ((v : ℚ) / 127)) * 127 - (v : ℚ)| ≤ 1 := by
  have hcast : ((v : ℚ) / 127) * 127 = (v : ℚ) := by
    field_simp
  have htrunc : translate_fader_to_hardware ((v : ℚ) / 127) = (v : ℤ) := by
    rw [translate_fader_to_hardware, hcast, pyTrunc,
      if_pos (by positivity)]
    exact_mod_cast Int.floor_intCast (v : ℤ)
  rw [htrunc, translate_fader_from_hardware]
  push_cast
  rw [div_mul_cancel₀ _ (by norm_num : (127 : ℚ) ≠ 0)]
  simp

/-- Witness for C8 at v = 100. -/
theorem c8_fader_roundtrip_witness :
    |translate_fader_from_hardware
        (translate_fader_to_hardware ((100 : ℚ) / 127)) * 127 - (100 : ℚ)|
      ≤ 1 :=
  c8_fader_roundtrip 100 (by norm_num)

/-! ## Data model: `src/ludwig/models.py`

Python objects are modelled where the claims need them. `ParameterChange.value`
(`float | bool | str | int` in models.py) is `PyVal`. For the dynamic
attribute walk of `StateManager._apply_nested_parameter`, pydantic model
instances are viewed as finite attribute maps (`PyObj.obj`), Python lists as
`PyObj.list`, and scalars as `PyObj.val` — the object-graph view Python's
`getattr`/`setattr`/indexing actually operates on. -/

/-- A `ParameterChange.value`: Python `float | int` (exact rational),
`bool`, or `str`. -/
inductive PyVal where
  | num : ℚ → PyVal
  | bool : Bool → PyVal
  | str : String → PyVal
deriving DecidableEq, Repr

/-- A Python object reachable by `_apply_nested_parameter`: a pydantic model
(attribute map), a list, or a scalar. -/
inductive PyObj where
  | obj : List (String × PyObj) → PyObj
  | list : List PyObj → PyObj
  | val : PyVal → PyObj

/-- First-match lookup in an attribute/dict association list (Python dict /
`getattr`; keys are unique in all states built by the code). -/
def dictGet {κ α : Type} [DecidableEq κ] : List (κ × α) → κ → Option α
  | [], _ => none
  | (k, v) :: rest, key => if k = key then some v else dictGet rest key

/-- In-place mutation of the value under a key (Python `d[k].field = v` /
`setattr`): rewrite every pairing of that key. -/
def dictUpdate {κ α : Type} [DecidableEq κ] (l : List (κ × α)) (key : κ)
    (f : α → α) : List (κ × α) :=
  l.map (fun p => if p.1 = key then (p.1, f p.2) else p)

/-- Python dict assignment `d[key] = v`: replace if present, append if new. -/
def dictAssign {κ α : Type} [DecidableEq κ] (l : List (κ × α)) (key : κ)
    (v : α) : List (κ × α) :=
  if (dictGet l key).isSome then dictUpdate l key (fun _ => v)
  else l ++ [(key, v)]

/-- `ChannelType` (models.py lines 17-28). -/
inductive ChannelType where
  | input
  | aux
  | bus
  | fx_return
  | fx_send
  | dca
  | matrix
  | main
  | stereo
deriving DecidableEq, Repr

/-- `Channel` (models.py lines 159-195), restricted to the fields the
modelled operations read or write (`color`, routing, sends and meter fields
are never touched by any modelled operation). The nested `eq`, `compressor`
and `gate` pydantic models are kept as `PyObj` attribute maps because
`_apply_nested_parameter` walks them dynamically. -/
structure Channel where
  id : String
  index : ℤ
  channel_type : ChannelType
  name : String
  fader : ℚ
  mute : Bool
  solo : Bool
  pan : ℚ
  eq : PyObj
  compressor : PyObj
  gate : PyObj

/-- Default `EQBand` (models.py lines 96-103) as an attribute map. -/
def defaultEQBand (bandType : String) (frequency : ℚ) : PyObj :=
  .obj [ ("enabled", .val (.bool true))
       , ("band_type", .val (.str bandType))
       , ("frequency", .val (.num frequency))
       , ("gain", .val (.num 0))
       , ("q", .val (.num 1)) ]

/-- Default `Equalizer` (models.py lines 106-117). -/
def defaultEqualizer : PyObj :=
  .obj [ ("enabled", .val (.bool true))
       , ("bands", .list
           [ defaultEQBand "low_shelf" 80
           , defaultEQBand "parametric" 400
           , defaultEQBand "parametric" 2000
           , defaultEQBand "high_shelf" 8000 ]) ]

/-- Default `Compressor` (models.py lines 120-130). -/
def defaultCompressor : PyObj :=
  .obj [ ("enabled", .val (.bool false))
       , ("comp_type", .val (.num 1))
       , ("threshold", .val (.num (-20)))
       , ("ratio", .val (.num 4))
       , ("attack_ms", .val (.num 10))
       , ("release_ms", .val (.num 100))
       , ("knee", .val (.num (1 / 2)))
       , ("makeup_gain", .val (.num 0)) ]

/-- Default `Gate` (models.py lines 133-141). -/
def defaultGate : PyObj :=
  .obj [ ("enabled", .val (.bool false))
       , ("threshold", .val (.num (-40)))
       , ("range", .val (.num (-80)))
       , ("attack_ms", .val (.num (1 / 2)))
       , ("hold_ms", .val (.num 50))
       , ("release_ms", .val (.num 200)) ]

/-- A default input channel as built by
`BoardPlugin._create_default_channels` (base.py 274-281) with the model
defaults of models.py. -/
def defaultInputChannel (i : ℤ) (cid name : String) : Channel :=
  { id := cid, index := i, channel_type := .input, name := name
  , fader := 0, mute := false, solo := false, pan := 0
  , eq := defaultEqualizer, compressor := defaultCompressor
  , gate := defaultGate }

/-- `MixerState` (models.py lines 274-287) restricted to its `channels`
mapping; `device`, `current_scene` and `meters` are never touched by the
modelled operations. -/
structure MixerState where
  channels : List (String × Channel)

/-- `ParameterChange` (models.py lines 307-313). -/
structure ParameterChange where
  channel_id : String
  parameter : String
  value : PyVal
  source : String

/-- Python `float(value)` on a `ParameterChange.value`. `float` of a bool is
0.0/1.0; `float` of a non-numeric string raises `ValueError` (parsing of
numeric strings is not modelled — no analyzed behavior depends on it). -/
def pyFloat : PyVal → Except PyErr ℚ
  | .num q => .ok q
  | .bool b => .ok (if b then 1 else 0)
  | .str _ => .error .valueError

/-- Python `bool(value)` on a `ParameterChange.value` (total). -/
def pyBool : PyVal → Bool
  | .num q => if q = 0 then false else true
  | .bool b => b
  | .str s => if s = "" then false else true

/-- Python `str.isdigit()` (restricted to ASCII digits, the only case the
code produces). Strings are handled through their code-point list, matching
Python string semantics. -/
def pyIsDigit (s : String) : Bool :=
  !s.data.isEmpty && s.data.all Char.isDigit

/-- Decimal value of a list of digit characters. -/
def digitsVal (cs : List Char) : ℕ :=
  cs.foldl (fun n c => n * 10 + (c.toNat - 48)) 0

/-- Value of `int(s)` for an all-digit string (the only branch guarded by
`isdigit()` in the source). -/
def digitsToNat (s : String) : ℕ :=
  digitsVal s.data

/-- Python `s.startswith(p)` over code points. -/
def pyStartsWith (s p : String) : Bool :=
  p.data.isPrefixOf s.data

/-- Python `s[n:]` over code points. -/
def pyDrop (s : String) (n : ℕ) : String :=
  ⟨s.data.drop n⟩

/-- Helper for Python `str.split(sep)` over code points: `acc` holds the
current segment reversed. -/
def pySplitAux (sep : Char) : List Char → List Char → List String
  | [], acc => [⟨acc.reverse⟩]
  | c :: rest, acc =>
    if c = sep then ⟨acc.reverse⟩ :: pySplitAux sep rest []
    else pySplitAux sep rest (c :: acc)

/-- Python `s.split(sep)` for a one-character separator (the only form the
source uses: `path.split(".")`, and `rsplit("_", 1)` built on top). -/
def pySplit (s : String) (sep : Char) : List String :=
  pySplitAux sep s.data []

/-! ## State manager: `src/ludwig/server/state.py`

A registered plugin is opaque to the state manager; for dispatch all that
matters is whether its operation call raises. `dispatchCalls` is the
embedding of the bare `for plugin in self._plugins.values(): plugin.op(...)`
loop of `set_fader`/`set_mute`/`set_pan` (state.py 116-117, 126-127,
139-140): there is no `try`/`except`, so a raising call aborts the loop and
the exception propagates. -/

/-- A registered plugin, opaque except for whether its dispatched operation
call raises. `pid` identifies it. -/
structure Plugin where
  pid : ℕ
  raises : Bool
deriving DecidableEq, Repr

/-- The `for plugin in self._plugins.values(): plugin.op(channel_id, v)`
loop: returns the calls made (plugin id, value passed) in order, and the id
of the plugin whose call raised (`some pid` means the exception escaped the
loop uncaught; plugins after it are never called). -/
def dispatchCalls {α : Type} (v : α) : List Plugin → List (ℕ × α) × Option ℕ
  | [] => ([], none)
  | p :: ps =>
    if p.raises then ([(p.pid, v)], some p.pid)
    else
      let r := dispatchCalls v ps
      ((p.pid, v) :: r.1, r.2)

/-- `StateManager` (state.py 29-34) restricted to the claim-relevant
`_state` and `_plugins` (scenes, meters and the asyncio lock play no part in
the modelled operations). -/
structure StateManager where
  state : Option MixerState
  plugins : List Plugin

/-- Result of a `StateManager` set-operation: the manager afterwards, the
plugin calls made, and the id of a plugin whose call raised (the exception
propagating to the caller), if any. -/
structure SetResult (α : Type) where
  manager : StateManager
  calls : List (ℕ × α)
  raised : Option ℕ

/-- `StateManager.set_fader` (state.py 104-117): guard on missing state or
channel, clamp `max(0.0, min(1.0, level))`, store in canonical state, then
dispatch the clamped value to every plugin (bare loop, no `try`). -/
def StateManager.set_fader (sm : StateManager) (channel_id : String)
    (level : ℚ) : SetResult ℚ :=
  match sm.state with
  | none => ⟨sm, [], none⟩
  | some st =>
    if (dictGet st.channels channel_id).isSome then
      let lvl := max 0 (min 1 level)
      let st2 : MixerState :=
        ⟨dictUpdate st.channels channel_id (fun c => { c with fader := lvl })⟩
      let d := dispatchCalls lvl sm.plugins
      ⟨⟨some st2, sm.plugins⟩, d.1, d.2⟩
    else ⟨sm, [], none⟩

/-- `StateManager.set_mute` (state.py 119-127): no clamp (boolean), store,
then dispatch. -/
def StateManager.set_mute (sm : StateManager) (channel_id : String)
    (muted : Bool) : SetResult Bool :=
  match sm.state with
  | none => ⟨sm, [], none⟩
  | some st =>
    if (dictGet st.channels channel_id).isSome then
      let st2 : MixerState :=
        ⟨dictUpdate st.channels channel_id (fun c => { c with mute := muted })⟩
      let d := dispatchCalls muted sm.plugins
      ⟨⟨some st2, sm.plugins⟩, d.1, d.2⟩
    else ⟨sm, [], none⟩

/-- `StateManager.set_pan` (state.py 129-140): guard, clamp
`max(-1.0, min(1.0, pan))`, store, then dispatch the clamped value. -/
def StateManager.set_pan (sm : StateManager) (channel_id : String)
    (pan : ℚ) : SetResult ℚ :=
  match sm.state with
  | none => ⟨sm, [], none⟩
  | some st =>
    if (dictGet st.channels channel_id).isSome then
      let pv := max (-1) (min 1 pan)
      let st2 : MixerState :=
        ⟨dictUpdate st.channels channel_id (fun c => { c with pan := pv })⟩
      let d := dispatchCalls pv sm.plugins
      ⟨⟨some st2, sm.plugins⟩, d.1, d.2⟩
    else ⟨sm, [], none⟩

/-- One step of the descent loop of `_apply_nested_parameter`
(state.py 177-181): `obj = obj[int(part)] if part.isdigit() else
getattr(obj, part)`. Indexing a list out of range raises `IndexError`;
indexing a non-list raises `TypeError`; `getattr` with an unknown attribute
raises `AttributeError`. -/
def pyGetStep (obj : PyObj) (part : String) : Except PyErr PyObj :=
  if pyIsDigit part then
    match obj with
    | .list xs =>
      match xs.get? (digitsToNat part) with
      | some x => .ok x
      | none => .error .indexError
    | _ => .error .typeError
  else
    match obj with
    | .obj fields =>
      match dictGet fields part with
      | some x => .ok x
      | none => .error .attributeError
    | _ => .error .attributeError

/-- The final assignment of `_apply_nested_parameter` (state.py 183-187):
`obj[int(final_key)] = value` or `setattr(obj, final_key, value)`. A pydantic
model raises `ValueError` for an undeclared field (and by default performs
no validation when assigning a declared one). -/
def pySetStep (obj : PyObj) (key : String) (v : PyObj) : Except PyErr PyObj :=
  if pyIsDigit key then
    match obj with
    | .list xs =>
      if digitsToNat key < xs.length then
        .ok (.list (xs.set (digitsToNat key) v))
      else .error .indexError
    | _ => .error .typeError
  else
    match obj with
    | .obj fields =>
      if (dictGet fields key).isSome then
        .ok (.obj (dictUpdate fields key (fun _ => v)))
      else .error .valueError
    | _ => .error .attributeError

/-- Functional rendering of Python's in-place mutation: after the child
fetched at `part` has been modified, the parent holds the modified child.
Only reached after a successful `pyGetStep`, whose cases it mirrors. -/
def pyWriteBack (obj : PyObj) (part : String) (child : PyObj) : PyObj :=
  if pyIsDigit part then
    match obj with
    | .list xs => .list (xs.set (digitsToNat part) child)
    | o => o
  else
    match obj with
    | .obj fields => .obj (dictUpdate fields part (fun _ => child))
    | o => o

/-- `_apply_nested_parameter`'s walk over the already-split path
(state.py 173-187): descend through `parts[:-1]`, assign at `parts[-1]`.
`parts` is never `[]` (Python `split` returns at least one element);
`parts[-1]` of an empty list would raise `IndexError`. -/
def applyNestedPath (obj : PyObj) : List String → PyVal → Except PyErr PyObj
  | [], _ => .error .indexError
  | [key], value => pySetStep obj key (.val value)
  | part :: rest, value => do
    let child ← pyGetStep obj part
    let child2 ← applyNestedPath child rest value
    .ok (pyWriteBack obj part child2)

/-- `StateManager._apply_nested_parameter` (state.py 173-187):
`parts = path.split(".")`, then walk. -/
def applyNestedParameter (obj : PyObj) (path : String) (value : PyVal) :
    Except PyErr PyObj :=
  applyNestedPath obj (pySplit path '.') value

/-- `StateManager.apply_parameter_change` (state.py 142-171): guard on
missing state/channel, then branch on the parameter name; `fader`, `mute`
and `pan` delegate to the set-operations above, `solo` assigns directly,
the prefixed branches strip the prefix and walk the nested object, and a
parameter matching no branch falls through — the change is silently ignored.
Exceptions of a dispatched plugin call are surfaced through `SetResult` and
not re-raised here. -/
def StateManager.apply_parameter_change (sm : StateManager)
    (change : ParameterChange) : Except PyErr StateManager :=
  match sm.state with
  | none => .ok sm
  | some st =>
    match dictGet st.channels change.channel_id with
    | none => .ok sm
    | some channel =>
      if change.parameter = "fader" then do
        let v ← pyFloat change.value
        .ok (StateManager.set_fader sm change.channel_id v).manager
      else if change.parameter = "mute" then
        .ok (StateManager.set_mute sm change.channel_id
              (pyBool change.value)).manager
      else if change.parameter = "pan" then do
        let v ← pyFloat change.value
        .ok (StateManager.set_pan sm change.channel_id v).manager
      else if change.parameter = "solo" then
        .ok ⟨some ⟨dictUpdate st.channels change.channel_id
              (fun c => { c with solo := pyBool change.value })⟩, sm.plugins⟩
      else if pyStartsWith change.parameter "eq." then do
        let eq2 ← applyNestedParameter channel.eq
          (pyDrop change.parameter 3) change.value
        .ok ⟨some ⟨dictUpdate st.channels change.channel_id
              (fun c => { c with eq := eq2 })⟩, sm.plugins⟩
      else if pyStartsWith change.parameter "compressor." then do
        let comp2 ← applyNestedParameter channel.compressor
          (pyDrop change.parameter 11) change.value
        .ok ⟨some ⟨dictUpdate st.channels change.channel_id
              (fun c => { c with compressor := comp2 })⟩, sm.plugins⟩
      else if pyStartsWith change.parameter "gate." then do
        let gate2 ← applyNestedParameter channel.gate
          (pyDrop change.parameter 5) change.value
        .ok ⟨some ⟨dictUpdate st.channels change.channel_id
              (fun c => { c with gate := gate2 })⟩, sm.plugins⟩
      else .ok sm

/-- `StateManager.on_hardware_parameter_change` (state.py 211-216): the body
under the guard is `pass` — no field of the canonical state is written and
nothing is dispatched. -/
def StateManager.on_hardware_parameter_change (sm : StateManager)
    (change : ParameterChange) : StateManager :=
  match sm.state with
  | some st =>
    if (dictGet st.channels change.channel_id).isSome then sm else sm
  | none => sm

/-- The canonical fader value recorded for a channel, if any. -/
def faderOf (sm : StateManager) (channel_id : String) : Option ℚ :=
  match sm.state with
  | some st => (dictGet st.channels channel_id).map Channel.fader
  | none => none

/-- The canonical pan value recorded for a channel, if any. -/
def panOf (sm : StateManager) (channel_id : String) : Option ℚ :=
  match sm.state with
  | some st => (dictGet st.channels channel_id).map Channel.pan
  | none => none

/-! ### Helper lemmas and example states -/

/-- Updating a key and reading it back yields the mapped value. -/
theorem dictGet_dictUpdate_self {κ α : Type} [DecidableEq κ]
    (l : List (κ × α)) (key : κ) (f : α → α) :
    dictGet (dictUpdate l key f) key = (dictGet l key).map f := by
  induction l with
  | nil => rfl
  | cons hd tl ih =>
    obtain ⟨k, v⟩ := hd
    simp only [dictUpdate, List.map_cons] at ih ⊢
    by_cases h : k = key
    · subst h
      have hif : (if (k, v).1 = k then ((k, v).1, f (k, v).2) else (k, v))
          = (k, f v) := if_pos rfl
      rw [hif]
      simp [dictGet]
    · have hif : (if (k, v).1 = key then ((k, v).1, f (k, v).2) else (k, v))
          = (k, v) := if_neg h
      rw [hif]
      simp only [dictGet, if_neg h]
      exact ih

/-- Every call made by the dispatch loop passes the same value. -/
theorem dispatchCalls_values {α : Type} (v : α) (ps : List Plugin) :
    ∀ c ∈ (dispatchCalls v ps).1, c.2 = v := by
  induction ps with
  | nil => intro c hc; simp [dispatchCalls] at hc
  | cons p ps ih =>
    intro c hc
    by_cases h : p.raises
    · simp [dispatchCalls, h] at hc
      subst hc; rfl
    · simp [dispatchCalls, h] at hc
      rcases hc with hc | hc
      · subst hc; rfl
      · exact ih c hc

/-- The dispatch loop up to the first raising plugin: everything before it
is called, it is called, the exception escapes, nothing after it runs. -/
theorem dispatchCalls_raise {α : Type} (v : α) (xs ys : List Plugin)
    (p : Plugin) (hxs : ∀ q ∈ xs, q.raises = false) (hp : p.raises = true) :
    dispatchCalls v (xs ++ p :: ys) =
      (xs.map (fun q => (q.pid, v)) ++ [(p.pid, v)], some p.pid) := by
  induction xs with
  | nil => simp [dispatchCalls, hp]
  | cons q qs ih =>
    have hq : q.raises = false := hxs q (List.mem_cons_self q qs)
    have ihq := ih (fun r hr => hxs r (List.mem_cons_of_mem q hr))
    simp [dispatchCalls, hq, ihq]

/-- An `input_1` channel with the models.py defaults, as
`_create_default_channels` builds it. -/
def exChannel : Channel := defaultInputChannel 1 "input_1" "Ch 1"

/-- A canonical state holding just `input_1`. -/
def exState : MixerState := ⟨[("input_1", exChannel)]⟩

/-! ### Theorems for C3, C4, C9 -/

/-- Three registered plugins, of which #2 raises on dispatch. -/
def c3sm : StateManager :=
  ⟨some exState, [⟨1, false⟩, ⟨2, true⟩, ⟨3, false⟩]⟩

/-- C3 counterexample: with 3 registered plugins where plugin #2 raises,
dispatching `set_fader` calls plugins #1 and #2 only — plugin #3 never
receives the operation, and the exception escapes uncaught (`raised = some
2`) instead of being caught and reported. -/
theorem c3_dispatch_counterexample :
    (c3sm.set_fader "input_1" (1 / 2)).calls.map Prod.fst = [1, 2] ∧
    (c3sm.set_fader "input_1" (1 / 2)).raised = some 2 := by
  exact ⟨rfl, rfl⟩

/-- C3 (amended): the dispatch loop of `set_fader` has no `try`/`except`;
when a registered plugin raises, the exception propagates out of the state
manager: every plugin registered before the raiser receives the operation
(with the clamped level), the raiser is invoked, and no plugin after it is
invoked. -/
theorem c3_dispatch_amended (sm : StateManager) (st : MixerState)
    (cid : String) (level : ℚ) (xs ys : List Plugin) (p : Plugin)
    (hst : sm.state = some st)
    (hch : (dictGet st.channels cid).isSome = true)
    (hpl : sm.plugins = xs ++ p :: ys)
    (hxs : ∀ q ∈ xs, q.raises = false) (hp : p.raises = true) :
    (sm.set_fader cid level).calls =
      xs.map (fun q => (q.pid, max 0 (min 1 level))) ++
        [(p.pid, max 0 (min 1 level))] ∧
    (sm.set_fader cid level).raised = some p.pid := by
  have hd := dispatchCalls_raise (max 0 (min 1 level)) xs ys p hxs hp
  constructor <;>
    simp [StateManager.set_fader, hst, hch, hpl, hd]

/-- Witness for C3 (amended) on the concrete 3-plugin manager. -/
theorem c3_dispatch_amended_witness :
    (c3sm.set_fader "input_1" (1 / 2)).calls =
      [(1, max 0 (min 1 ((1 : ℚ) / 2))), (2, max 0 (min 1 ((1 : ℚ) / 2)))] ∧
    (c3sm.set_fader "input_1" (1 / 2)).raised = some 2 := by
  have h := c3_dispatch_amended c3sm exState "input_1" (1 / 2)
    [⟨1, false⟩] [⟨3, false⟩] ⟨2, true⟩ rfl rfl rfl (by decide) rfl
  exact ⟨by simpa using h.1, h.2⟩

/-- A hardware-originated fader change for `input_1`. -/
def c4Change : ParameterChange := ⟨"input_1", "fader", .num (1 / 2), "hardware"⟩

/-- A manager holding the default `input_1` channel (fader 0). -/
def c4sm : StateManager := ⟨some exState, []⟩

/-- C4 (code bug): `on_hardware_parameter_change` is a `pass` stub — for a
hardware change whose channel exists in canonical state, the manager is
returned unchanged: `input_1`'s fader stays 0 instead of becoming the new
value 1/2, contradicting the function's own `# Update local state` comment.
(No dispatch back to the plugins happens either, trivially.) -/
theorem c4_hardware_callback_stub :
    StateManager.on_hardware_parameter_change c4sm c4Change = c4sm ∧
    faderOf (StateManager.on_hardware_parameter_change c4sm c4Change)
      "input_1" = some 0 ∧
    faderOf (StateManager.on_hardware_parameter_change c4sm c4Change)
      "input_1" ≠ some (1 / 2) := by
  have h2 : faderOf (StateManager.on_hardware_parameter_change c4sm c4Change)
      "input_1" = some 0 := rfl
  refine ⟨rfl, h2, ?_⟩
  rw [h2]
  intro hcontra
  have h3 := Option.some.inj hcontra
  norm_num at h3

/-- C9: for an existing channel, `set_fader` stores and dispatches exactly
the clamped level `max 0 (min 1 level)` and `set_pan` stores and dispatches
exactly the clamped pan `max (-1) (min 1 pan)` — the raw value is never
stored or dispatched — and the clamp sends 3/2 to 1 and -3 to -1. -/
theorem c9_clamp_and_store (sm : StateManager) (st : MixerState)
    (cid : String) (level pan : ℚ) (hst : sm.state = some st)
    (hch : (dictGet st.channels cid).isSome = true) :
    faderOf (sm.set_fader cid level).manager cid =
      some (max 0 (min 1 level)) ∧
    (∀ c ∈ (sm.set_fader cid level).calls, c.2 = max 0 (min 1 level)) ∧
    panOf (sm.set_pan cid pan).manager cid =
      some (max (-1) (min 1 pan)) ∧
    (∀ c ∈ (sm.set_pan cid pan).calls, c.2 = max (-1) (min 1 pan)) ∧
    max 0 (min 1 ((3 : ℚ) / 2)) = 1 ∧
    max (-1) (min 1 ((-3 : ℚ))) = -1 := by
  obtain ⟨ch, hch2⟩ := Option.isSome_iff_exists.mp hch
  refine ⟨?_, ?_, ?_, ?_, by norm_num, by norm_num⟩
  · simp [StateManager.set_fader, hst, hch, faderOf,
      dictGet_dictUpdate_self, hch2]
  · intro c hc
    refine dispatchCalls_values _ sm.plugins c ?_
    simpa [StateManager.set_fader, hst, hch] using hc
  · simp [StateManager.set_pan, hst, hch, panOf,
      dictGet_dictUpdate_self, hch2]
  · intro c hc
    refine dispatchCalls_values _ sm.plugins c ?_
    simpa [StateManager.set_pan, hst, hch] using hc

/-- A manager with one (non-raising) registered plugin, for the C9 witness. -/
def c9sm : StateManager := ⟨some exState, [⟨7, false⟩]⟩

/-- Witness for C9 at level 3/2 and pan -3 on a concrete manager. -/
theorem c9_clamp_and_store_witness :
    faderOf (c9sm.set_fader "input_1" ((3 : ℚ) / 2)).manager "input_1" =
      some (max 0 (min 1 ((3 : ℚ) / 2))) ∧
    (∀ c ∈ (c9sm.set_fader "input_1" ((3 : ℚ) / 2)).calls,
      c.2 = max 0 (min 1 ((3 : ℚ) / 2))) ∧
    panOf (c9sm.set_pan "input_1" ((-3 : ℚ))).manager "input_1" =
      some (max (-1) (min 1 ((-3 : ℚ)))) ∧
    (∀ c ∈ (c9sm.set_pan "input_1" ((-3 : ℚ))).calls,
      c.2 = max (-1) (min 1 ((-3 : ℚ)))) ∧
    max 0 (min 1 ((3 : ℚ) / 2)) = 1 ∧
    max (-1) (min 1 ((-3 : ℚ))) = -1 :=
  c9_clamp_and_store c9sm exState "input_1" ((3 : ℚ) / 2) ((-3 : ℚ)) rfl rfl

/-! ### Theorems for C5 -/

/-- A parameter change whose dotted path matches no branch of
`apply_parameter_change`. -/
def c5BogusChange : ParameterChange := ⟨"input_1", "bogus", .num 1, "api"⟩

/-- A manager with the default `input_1` channel and no plugins. -/
def c5sm : StateManager := ⟨some exState, []⟩

/-- C5 counterexample: an unknown parameter path does NOT fail with
`ParameterPathError` (no such error class exists anywhere in the code) —
`apply_parameter_change` falls through every branch and returns normally
with the state untouched. -/
theorem c5_unknown_path_counterexample :
    StateManager.apply_parameter_change c5sm c5BogusChange =
      Except.ok c5sm := by
  have hne1 : ("bogus" : String) ≠ "fader" := by decide
  have hne2 : ("bogus" : String) ≠ "mute" := by decide
  have hne3 : ("bogus" : String) ≠ "pan" := by decide
  have hne4 : ("bogus" : String) ≠ "solo" := by decide
  have hsw1 : pyStartsWith "bogus" "eq." = false := by decide
  have hsw2 : pyStartsWith "bogus" "compressor." = false := by decide
  have hsw3 : pyStartsWith "bogus" "gate." = false := by decide
  simp [StateManager.apply_parameter_change, c5sm, c5BogusChange, exState,
    dictGet, hne1, hne2, hne3, hne4, hsw1, hsw2, hsw3]

/-- C5 (amended): a parameter name outside the closed set
(`fader`/`mute`/`pan`/`solo`/`eq.*`/`compressor.*`/`gate.*`) is silently
ignored — `apply_parameter_change` returns ok with the manager unchanged and
raises nothing; an EQ band index beyond the channel's band list raises a
plain `IndexError` (not a `ParameterPathError`), the state left unchanged
(the failing descent precedes any assignment). -/
theorem c5_path_handling_amended :
    (∀ (sm : StateManager) (change : ParameterChange),
      change.parameter ≠ "fader" → change.parameter ≠ "mute" →
      change.parameter ≠ "pan" → change.parameter ≠ "solo" →
      pyStartsWith change.parameter "eq." = false →
      pyStartsWith change.parameter "compressor." = false →
      pyStartsWith change.parameter "gate." = false →
      StateManager.apply_parameter_change sm change = Except.ok sm) ∧
    (∀ (sm : StateManager) (st : MixerState) (ch : Channel) (cid : String)
      (e : PyObj) (bs : List PyObj) (v : PyVal) (src : String),
      sm.state = some st → dictGet st.channels cid = some ch →
      ch.eq = PyObj.obj [("enabled", e), ("bands", PyObj.list bs)] →
      bs.length ≤ 5 →
      StateManager.apply_parameter_change sm ⟨cid, "eq.bands.5.gain", v, src⟩ =
        Except.error PyErr.indexError) := by
  constructor
  · intro sm change h1 h2 h3 h4 h5 h6 h7
    cases hst : sm.state with
    | none => simp [StateManager.apply_parameter_change, hst]
    | some st =>
      cases hch : dictGet st.channels change.channel_id with
      | none => simp [StateManager.apply_parameter_change, hst, hch]
      | some ch =>
        simp [StateManager.apply_parameter_change, hst, hch,
          h1, h2, h3, h4, h5, h6, h7]
  · intro sm st ch cid e bs v src hst hch heq hlen
    have hget : bs[5]? = none := List.getElem?_eq_none hlen
    have hne1 : ("eq.bands.5.gain" : String) ≠ "fader" := by decide
    have hne2 : ("eq.bands.5.gain" : String) ≠ "mute" := by decide
    have hne3 : ("eq.bands.5.gain" : String) ≠ "pan" := by decide
    have hne4 : ("eq.bands.5.gain" : String) ≠ "solo" := by decide
    have hsw : pyStartsWith "eq.bands.5.gain" "eq." = true := by decide
    have hsplit : pySplit (pyDrop "eq.bands.5.gain" 3) '.' =
        ["bands", "5", "gain"] := by decide
    have hdigA : pyIsDigit "bands" = false := by decide
    have hdigB : pyIsDigit "5" = true := by decide
    have hd5 : digitsToNat "5" = 5 := by decide
    simp [StateManager.apply_parameter_change, hst, hch, hne1, hne2, hne3,
      hne4, hsw, applyNestedParameter, hsplit, applyNestedPath, heq,
      pyGetStep, hdigA, hdigB, hd5, dictGet, hget, Bind.bind, Except.bind]

/-- Witness for C5 (amended): `unknown_param` is silently ignored on a
concrete manager, and `eq.bands.5.gain` (the default channel has 4 bands)
raises `IndexError`. -/
theorem c5_path_handling_amended_witness :
    StateManager.apply_parameter_change c5sm
      ⟨"input_1", "unknown_param", .num 2, "api"⟩ = Except.ok c5sm ∧
    StateManager.apply_parameter_change c5sm
      ⟨"input_1", "eq.bands.5.gain", .num 1, "api"⟩ =
      Except.error PyErr.indexError := by
  constructor
  · exact c5_path_handling_amended.1 c5sm
      ⟨"input_1", "unknown_param", .num 2, "api"⟩
      (by decide) (by decide) (by decide) (by decide)
      (by decide) (by decide) (by decide)
  · exact c5_path_handling_amended.2 c5sm exState exChannel "input_1"
      (PyObj.val (PyVal.bool true))
      [ defaultEQBand "low_shelf" 80, defaultEQBand "parametric" 400
      , defaultEQBand "parametric" 2000, defaultEQBand "high_shelf" 8000 ]
      (.num 1) "api" rfl rfl rfl (by simp)

/-! ## XAir board plugin: `src/ludwig/boards/xair.py` and the channel-id
mapping of `src/ludwig/plugins/base.py` (C6) -/

/-- Lookup over an absent key is decided by the tail. -/
theorem dictGet_append_none {κ α : Type} [DecidableEq κ]
    (l l2 : List (κ × α)) (key : κ) (h : dictGet l key = none) :
    dictGet (l ++ l2) key = dictGet l2 key := by
  induction l with
  | nil => rfl
  | cons hd tl ih =>
    obtain ⟨k, v⟩ := hd
    by_cases hk : k = key
    · simp [dictGet, hk] at h
    · simp only [dictGet, if_neg hk] at h
      simp only [List.cons_append, dictGet, if_neg hk]
      exact ih h

/-- Reading back the key just assigned yields the assigned value. -/
theorem dictGet_dictAssign_self {κ α : Type} [DecidableEq κ]
    (l : List (κ × α)) (key : κ) (v : α) :
    dictGet (dictAssign l key v) key = some v := by
  by_cases h : (dictGet l key).isSome
  · obtain ⟨x, hx⟩ := Option.isSome_iff_exists.mp h
    simp [dictAssign, h, dictGet_dictUpdate_self, hx]
  · have hn : dictGet l key = none := Option.not_isSome_iff_eq_none.mp h
    simp [dictAssign, h, dictGet_append_none _ _ _ hn, dictGet]

/-- The `type_map` of `BoardPlugin._channel_id_to_index` (base.py 157-167),
with the dict's `.get(type_str, ChannelType.INPUT)` default. -/
def channelTypeMap (type_str : String) : ChannelType :=
  if type_str = "input" then .input
  else if type_str = "ch" then .input
  else if type_str = "aux" then .aux
  else if type_str = "bus" then .bus
  else if type_str = "fx" then .fx_return
  else if type_str = "fxsend" then .fx_send
  else if type_str = "dca" then .dca
  else if type_str = "matrix" then .matrix
  else if type_str = "main" then .main
  else .input

/-- Python `s.rsplit(sep, 1)` for a one-character separator: at most one
split, taken from the right. -/
def pyRSplitOnce (s : String) (sep : Char) : List String :=
  match (pySplit s sep).reverse with
  | [] => [s]
  | [_] => [s]
  | lastPart :: front =>
    [String.intercalate ⟨[sep]⟩ front.reverse, lastPart]

/-- Python `int(s)` on a string: optionally `-`-signed run of digits
(whitespace, `+` signs and underscore separators accepted by Python are not
modelled — no analyzed channel id contains them); anything else raises
`ValueError`. -/
def pyIntOfString (s : String) : Except PyErr ℤ :=
  match s.data with
  | '-' :: rest =>
    if !rest.isEmpty && rest.all Char.isDigit then
      Except.ok (-(digitsVal rest : ℤ))
    else Except.error PyErr.valueError
  | _ =>
    if pyIsDigit s then Except.ok ((digitsToNat s : ℕ) : ℤ)
    else Except.error PyErr.valueError

/-- `BoardPlugin._channel_id_to_index` (base.py 143-169):
`parts = channel_id.rsplit("_", 1)`; the index is `int(parts[1])` when a
split happened, else 0; the type comes from `type_map` with INPUT default.
It performs no range check whatsoever. -/
def channel_id_to_index (channel_id : String) :
    Except PyErr (ℤ × ChannelType) :=
  match pyRSplitOnce channel_id '_' with
  | [t] => Except.ok (0, channelTypeMap t)
  | [t, istr] => do
    let i ← pyIntOfString istr
    Except.ok (i, channelTypeMap t)
  | _ => Except.error PyErr.valueError

/-- `XAirPlugin._get_cc_number` (xair.py 177-207): maps a 1-indexed channel
and type to a CC number, `none` when outside the declared ranges. -/
def XAir.getCCNumber (channel_index : ℤ) (channel_type : ChannelType) :
    Option ℕ :=
  match channel_type with
  | .input =>
    if 1 ≤ channel_index ∧ channel_index ≤ 16 then
      some (channel_index - 1).toNat
    else if channel_index = 17 then some 16
    else none
  | .fx_return =>
    if 1 ≤ channel_index ∧ channel_index ≤ 4 then
      some (17 + channel_index - 1).toNat
    else none
  | .aux =>
    if 1 ≤ channel_index ∧ channel_index ≤ 6 then
      some (21 + channel_index - 1).toNat
    else none
  | .fx_send =>
    if 1 ≤ channel_index ∧ channel_index ≤ 4 then
      some (27 + channel_index - 1).toNat
    else none
  | .main => some 31
  | _ => none

/-- `XAirPlugin._send_cc` (xair.py 171-175) with the output port open: the
3-byte CC message handed to the transport. -/
def XAir.sendCC (midi_channel cc_number : ℕ) (value : ℤ) : List ℤ :=
  [((CONTROL_CHANGE ||| midi_channel : ℕ) : ℤ), (cc_number : ℤ), value]

/-- `XAirPlugin._send_fader` (xair.py 137-143): look up the CC number; when
it is `None` the send is silently skipped (`if cc_number is not None`), no
exception of any kind. `_FADER_CHANNEL = 0`. Returns the messages submitted
to the transport. -/
def XAir.sendFader (channel_index : ℤ) (channel_type : ChannelType)
    (level : ℤ) : List (List ℤ) :=
  match XAir.getCCNumber channel_index channel_type with
  | some cc => [XAir.sendCC 0 cc level]
  | none => []

/-- `BoardPlugin.set_fader` as inherited by `XAirPlugin` (base.py 223-228):
map the channel id, translate the level, send. The plugin-local `_state`
cache update that follows the send touches no wire message and is not
modelled. -/
def XAir.set_fader (channel_id : String) (level : ℚ) :
    Except PyErr (List (List ℤ)) := do
  let it ← channel_id_to_index channel_id
  Except.ok (XAir.sendFader it.1 it.2 (translate_fader_to_hardware level))

/-- C6 counterexample: `input_20` is outside XAir's declared 16 input
channels (plus the stereo aux-in 17), yet `set_fader` completes without any
error — and in particular without the claimed `InvalidChannelError`, which
does not exist in the code — merely submitting no message. -/
theorem c6_out_of_range_counterexample :
    XAir.set_fader "input_20" (1 / 2) = Except.ok [] := by
  rfl

/-- C6 (amended): a hardware index outside the declared input range
(valid: 1-17) yields no CC number and `_send_fader` silently submits no
message; the operation completes without error — no `InvalidChannelError`
is raised (none exists). -/
theorem c6_out_of_range_amended (i : ℤ) (level : ℤ)
    (hi : i ≤ 0 ∨ 18 ≤ i) :
    XAir.getCCNumber i .input = none ∧ XAir.sendFader i .input level = [] := by
  have h1 : ¬(1 ≤ i ∧ i ≤ 16) := by rcases hi with h | h <;> omega
  have h2 : ¬(i = 17) := by rcases hi with h | h <;> omega
  refine ⟨?_, ?_⟩ <;> simp [XAir.sendFader, XAir.getCCNumber, h1, h2]

/-- Witness for C6 (amended) at hardware index 20. -/
theorem c6_out_of_range_amended_witness :
    XAir.getCCNumber 20 .input = none ∧ XAir.sendFader 20 .input 63 = [] :=
  c6_out_of_range_amended 20 63 (by norm_num)

/-! ## Command8 CC builder: `src/ludwig/boards/command8.py` (C7) -/

/-- `Command8.fader` (command8.py 9-12): builds
`[CONTROL_CHANGE | channel, 7, volume]` and hands it to `Midi.send`, which
forwards it unvalidated. No range check exists anywhere on this path. -/
def Command8.fader (channel volume : ℕ) : List ℕ :=
  Midi.send [CONTROL_CHANGE ||| channel, 7, volume]

/-- C7 counterexample: volume 200 is outside the 0-127 domain, yet the
builder does not fail with `RangeError` (which does not exist in the code):
it produces and submits `[0xB5, 7, 200]`. -/
theorem c7_no_validation_counterexample :
    Command8.fader 5 200 = [0xB5, 7, 200] := by
  rfl

/-- C7 (amended): the CC builder performs no range validation — for every
channel and volume, in or out of domain, it submits exactly
`[0xB0 ||| channel, 7, volume]`; for in-domain operands (channel ≤ 15) the
status byte is a well-formed CC status (< 0xC0). -/
theorem c7_cc_builder_amended (channel volume : ℕ)
    (hch : channel ≤ 15) (hvol : volume ≤ 127) :
    Command8.fader channel volume = [0xB0 ||| channel, 7, volume] ∧
    0xB0 ||| channel < 0xC0 ∧
    (∀ c v : ℕ, Command8.fader c v = Midi.send [0xB0 ||| c, 7, v]) := by
  refine ⟨rfl, ?_, fun c v => rfl⟩
  interval_cases channel <;> decide

/-- Witness for C7 (amended) at channel 5, volume 100. -/
theorem c7_cc_builder_amended_witness :
    Command8.fader 5 100 = [0xB0 ||| 5, 7, 100] ∧
    0xB0 ||| 5 < 0xC0 ∧
    (∀ c v : ℕ, Command8.fader c v = Midi.send [0xB0 ||| c, 7, v]) :=
  c7_cc_builder_amended 5 100 (by norm_num) (by norm_num)

/-! ## Broadcast layer: `src/ludwig/server/websocket.py` (C10)

Observers (WebSocket connections) are identified by naturals. Delivery is
modelled as the list of connections `send_json` is attempted on; the
pruning of failed sends afterwards involves no subscription logic. -/

/-- `ConnectionManager` (websocket.py 21-23): the tracked connections and
the per-connection subscription set (a list models the set; only
membership and emptiness are consumed). -/
structure ConnectionManager where
  connections : List ℕ
  subscriptions : List (ℕ × List String)

/-- `ConnectionManager.connect` (websocket.py 25-29): accept, append, and
initialize the subscription set to empty. -/
def ConnectionManager.connect (cm : ConnectionManager) (ws : ℕ) :
    ConnectionManager :=
  ⟨cm.connections ++ [ws], dictAssign cm.subscriptions ws []⟩

/-- `ConnectionManager.set_subscriptions` (websocket.py 38-40):
`self._subscriptions[websocket] = set(channels)`. -/
def ConnectionManager.set_subscriptions (cm : ConnectionManager) (ws : ℕ)
    (channels : List String) : ConnectionManager :=
  ⟨cm.connections, dictAssign cm.subscriptions ws channels⟩

/-- `ConnectionManager.broadcast_parameter_change` (websocket.py 62-94):
the connections to which the parameter message is sent — skip the excluded
originator, then skip a connection exactly when its subscription set is
non-empty (`if subs`) and does not contain the channel. -/
def ConnectionManager.broadcast_parameter_change (cm : ConnectionManager)
    (channel_id : String) (exclude : Option ℕ) : List ℕ :=
  cm.connections.filter fun conn =>
    if some conn = exclude then false
    else
      let subs := (dictGet cm.subscriptions conn).getD []
      if subs ≠ [] ∧ channel_id ∉ subs then false else true

/-- C10: an observer whose subscription set is empty — as `connect` creates
it, and as `set_subscriptions []` resets it — receives the parameter
broadcast for every channel_id, provided it is not the excluded originator:
an empty set means unfiltered delivery, not subscribed-to-nothing. -/
theorem c10_empty_subscription_unfiltered (cm : ConnectionManager) (ws : ℕ)
    (cid : String) (exclude : Option ℕ) (hx : exclude ≠ some ws) :
    ws ∈ (cm.connect ws).connections ∧
    ws ∈ (cm.connect ws).broadcast_parameter_change cid exclude ∧
    (ws ∈ cm.connections →
      ws ∈ (cm.set_subscriptions ws []).broadcast_parameter_change
        cid exclude) := by
  have hxx : ¬(some ws = exclude) := fun h => hx h.symm
  refine ⟨by simp [ConnectionManager.connect], ?_, ?_⟩
  · simp only [ConnectionManager.broadcast_parameter_change]
    apply List.mem_filter.mpr
    refine ⟨by simp [ConnectionManager.connect], ?_⟩
    simp [ConnectionManager.connect, dictGet_dictAssign_self, hxx]
  · intro hmem
    simp only [ConnectionManager.broadcast_parameter_change]
    apply List.mem_filter.mpr
    refine ⟨by simpa [ConnectionManager.set_subscriptions] using hmem, ?_⟩
    simp [ConnectionManager.set_subscriptions, dictGet_dictAssign_self, hxx]

/-- A fresh connection manager for the C10 witness. -/
def c10cm : ConnectionManager := ⟨[], []⟩

/-- Witness for C10: observer 42 joins a fresh manager and receives the
broadcast for `input_2` with no excluded originator. -/
theorem c10_empty_subscription_unfiltered_witness :
    42 ∈ (c10cm.connect 42).connections ∧
    42 ∈ (c10cm.connect 42).broadcast_parameter_change "input_2" none ∧
    (42 ∈ c10cm.connections →
      42 ∈ (c10cm.set_subscriptions 42 []).broadcast_parameter_change
        "input_2" none) :=
  c10_empty_subscription_unfiltered c10cm 42 "input_2" none (by decide)
